import Mathlib

/-!
Shallow embedding of the Freescale LINFlex UART model
(`hw/char/fsl-linflex.c`) and verification of its register-level
specification.

The register file is modelled as a total function from register index
(`offset / 4`) to the 32-bit value stored in the slot; all machine
integers are `Nat` with explicit truncation (`% 2 ^ 32`, bit masks)
exactly where the C code truncates.  The side effects of a guest write
(bytes pushed to the character transport, the resume-accepting-input
notification, the interrupt-line level) are returned explicitly.
-/

namespace FslLinflex

/-- Modelled from the spec: register indices (`offset / 4`) of the
`LinflexRegs` enumeration.  The enumeration lives in the header
`fsl-linflex.h`, which is not among the sources; the indices are the
offsets-divided-by-four of the register table of the spec (§6). -/
def LINFLEX_LINCR1 : Nat := 0

/-- Modelled from the spec: index of the Interrupt-Enable register (offset 0x04). -/
def LINFLEX_LINIER : Nat := 1

/-- Modelled from the spec: index of the LIN Status register (offset 0x08). -/
def LINFLEX_LINSR : Nat := 2

/-- Modelled from the spec: index of the LIN Error Status register (offset 0x0C). -/
def LINFLEX_LINESR : Nat := 3

/-- Modelled from the spec: index of the UART-Control register (offset 0x10). -/
def LINFLEX_UARTCR : Nat := 4

/-- Modelled from the spec: index of the UART-Status register (offset 0x14). -/
def LINFLEX_UARTSR : Nat := 5

/-- Modelled from the spec: index of the Timeout/Control-Status register (offset 0x18). -/
def LINFLEX_LINTCSR : Nat := 6

/-- Modelled from the spec: index of the Output-Compare register (offset 0x1C). -/
def LINFLEX_LINOCR : Nat := 7

/-- Modelled from the spec: index of the Timeout-Control register (offset 0x20). -/
def LINFLEX_LINTOCR : Nat := 8

/-- Modelled from the spec: index of the Fractional Baud Rate register (offset 0x24). -/
def LINFLEX_LINFBRR : Nat := 9

/-- Modelled from the spec: index of the Integer Baud Rate register (offset 0x28). -/
def LINFLEX_LINIBRR : Nat := 10

/-- Modelled from the spec: index of the Checksum Field register (offset 0x2C). -/
def LINFLEX_LINCFR : Nat := 11

/-- Modelled from the spec: index of the Control-2 register (offset 0x30). -/
def LINFLEX_LINCR2 : Nat := 12

/-- Modelled from the spec: index of the Buffer Identifier register (offset 0x34). -/
def LINFLEX_BIDR : Nat := 13

/-- Modelled from the spec: index of the Transmit Buffer (low) register (offset 0x38). -/
def LINFLEX_BDRL : Nat := 14

/-- Modelled from the spec: index of the Receive Buffer (mid) register (offset 0x3C). -/
def LINFLEX_BDRM : Nat := 15

/-- Modelled from the spec: index of the Global Control register (offset 0x40). -/
def LINFLEX_GCR : Nat := 16

/-- Modelled from the spec: index of the UART Preset Timeout register (offset 0x44). -/
def LINFLEX_UARTPTO : Nat := 17

/-- Modelled from the spec: index of the UART Current Timeout register (offset 0x48). -/
def LINFLEX_UARTCTO : Nat := 18

/-- Modelled from the spec: index of the DMA TX Enable register (offset 0x4C). -/
def LINFLEX_DMATXE : Nat := 19

/-- Modelled from the spec: index of the DMA RX Enable register (offset 0x50). -/
def LINFLEX_DMARXE : Nat := 20

/-- Modelled from the spec: number of registers in the enumerated set
(21 slots, spec §3 and §6). -/
def LINFLEX_REGS_MAX : Nat := 21

/-- Modelled from the spec: the Control-1 INIT bit (the mode latch,
bit 0 of Control-1; contained in the writable mask 0x0001DF27). -/
def LINCR1_INIT : Nat := 0x00000001

/-- Modelled from the spec: the INIT-state flag of the LIN Status
register (LINS field = initialization). -/
def LINSR_LINS_INIT : Nat := 0x00001000

/-- Modelled from the spec: transmit-complete (data transmitted)
interrupt enable bit of the Interrupt-Enable register. -/
def LINIER_DTIE : Nat := 0x00000002

/-- Modelled from the spec: receive-complete (data received) interrupt
enable bit of the Interrupt-Enable register. -/
def LINIER_DRIE : Nat := 0x00000004

/-- Modelled from the spec: transmit-buffer-empty / data-transmission-completed
flag of the UART-Status register. -/
def UARTSR_DTFTFF : Nat := 0x00000002

/-- Modelled from the spec: receive-buffer-full / data-reception-completed
flag of the UART-Status register. -/
def UARTSR_DRFRFE : Nat := 0x00000004

/-- Modelled from the spec: receive-message-pending (release message buffer)
flag of the UART-Status register. -/
def UARTSR_RMB : Nat := 0x00000200

/-- Modelled from the spec: the UART-mode enable bit of the UART-Control
register (bit 0; not contained in the post-init writable mask 0x0070FC30). -/
def UARTCR_UART : Nat := 0x00000001

/-- The device state visible to the claims: the register file
(`uint32_t regs[LINFLEX_REGS_MAX]`), modelled as a total function from
register index to stored 32-bit value.  Only indices below
`LINFLEX_REGS_MAX` are ever read or written. -/
structure FslLinflexState where
  regs : Nat → Nat

/-- `s.regs[r] = v`: pointwise update of the register file. -/
def setReg (s : FslLinflexState) (r v : Nat) : FslLinflexState :=
  { regs := fun i => if i = r then v else s.regs i }

/-- `fsl_linflex_update_irq`: the interrupt-aggregation function.  The C
function drives the interrupt line with `qemu_set_irq`; here it returns
the level driven (1 or 0).  Early returns become an if-chain. -/
def fsl_linflex_update_irq (s : FslLinflexState) : Nat :=
  -- if interrupts on data reception complete enabled and reception complete
  if s.regs LINFLEX_LINIER &&& LINIER_DRIE ≠ 0 ∧
      s.regs LINFLEX_UARTSR &&& UARTSR_DRFRFE ≠ 0 then 1
  -- if interrupts on data transmission complete enabled and transmission complete
  else if s.regs LINFLEX_LINIER &&& LINIER_DTIE ≠ 0 ∧
      s.regs LINFLEX_UARTSR &&& UARTSR_DTFTFF ≠ 0 then 1
  else 0

/-- The observable outcome of a guest write: the new register file, the
bytes pushed to the character transport (`qemu_chr_fe_write_all`),
whether the resume-accepting-input notification
(`qemu_chr_fe_accept_input`) was invoked, and the level the interrupt
line was driven to by the trailing `fsl_linflex_update_irq`. -/
structure WriteResult where
  state : FslLinflexState
  txBytes : List Nat
  acceptInput : Bool
  irq : Nat

/-- `fsl_linflex_write`: the guest-write entry point.  `value` is first
truncated to 32 bits, the register index is `offset / 4`, and the switch
is dispatched on the index.  The cases for `LINFLEX_LINSR`,
`LINFLEX_LINESR`, the other unimplemented registers and the `default`
(invalid register) case only log and fall through to the final
`fsl_linflex_update_irq`, mutating nothing; they are all covered by the
final else branch. -/
def fsl_linflex_write (s : FslLinflexState) (offset value : Nat) : WriteResult :=
  let value := value % 2 ^ 32
  let reg := offset / 4
  let step : FslLinflexState × List Nat × Bool :=
    if reg = LINFLEX_LINCR1 then
      let s1 := setReg s reg (value &&& 0x0001DF27)
      let s2 :=
        if s1.regs reg &&& LINCR1_INIT ≠ 0 then
          setReg s1 LINFLEX_LINSR (s1.regs LINFLEX_LINSR ||| LINSR_LINS_INIT)
        else s1
      (s2, [], false)
    else if reg = LINFLEX_LINIER then
      (setReg s reg (value &&& 0x0000FFFF), [], false)
    else if reg = LINFLEX_UARTCR then
      if s.regs LINFLEX_LINCR1 &&& LINCR1_INIT ≠ 0 then
        -- uart mode can only be toggled in initialization mode
        let s1 := setReg s reg (s.regs reg ||| (value &&& UARTCR_UART))
        -- if uart mode is enabled and we are in init mode we can set the other fields
        let s2 :=
          if s1.regs reg &&& UARTCR_UART ≠ 0 then
            setReg s1 reg (s1.regs reg ||| value)
          else s1
        (s2, [], false)
      else if s.regs reg &&& UARTCR_UART ≠ 0 then
        -- certain fields are writable outside of initialization mode if uart mode is enabled
        (setReg s reg (s.regs reg ||| (value &&& 0x0070FC30)), [], false)
      else (s, [], false)
    else if reg = LINFLEX_UARTSR then
      let v := value &&& 0xFFFF -- upper 16 bits are reserved
      -- Detect if software cleared DRFRFE/RMB. If so, accept new char input
      let mask := UARTSR_DRFRFE ||| UARTSR_RMB
      let accept := decide (s.regs reg &&& mask ≠ 0 ∧ v &&& mask = 0)
      -- store new value of reg: regs[reg] &= ~value (32-bit complement)
      (setReg s reg (s.regs reg &&& (0xFFFFFFFF ^^^ v)), [], accept)
    else if reg = LINFLEX_BDRL then
      -- write to uart mode buffer, push low byte to the transport
      let s1 := setReg s reg value
      let s2 := setReg s1 LINFLEX_UARTSR (s1.regs LINFLEX_UARTSR ||| UARTSR_DTFTFF)
      (s2, [value % 2 ^ 8], false)
    else
      (s, [], false)
  { state := step.1, txBytes := step.2.1, acceptInput := step.2.2,
    irq := fsl_linflex_update_irq step.1 }

/-- `fsl_linflex_read`: the guest-read entry point.  Returns the
(possibly mutated) state together with the value read.  Control-1
forces bit 7 high in the stored and the returned value; the Receive
Buffer returns only its low byte; every other enumerated register is
read back verbatim (logged as unimplemented where applicable); an index
outside the enumeration returns 0. -/
def fsl_linflex_read (s : FslLinflexState) (offset : Nat) :
    FslLinflexState × Nat :=
  let reg := offset / 4
  if reg = LINFLEX_LINCR1 then
    -- r = s->regs[reg] |= 0x00000080; bit 7 is always high
    let s1 := setReg s reg (s.regs reg ||| 0x00000080)
    (s1, s1.regs reg)
  else if reg = LINFLEX_BDRM then
    (s, s.regs reg &&& 0xFF)
  else if reg < LINFLEX_REGS_MAX then
    (s, s.regs reg)
  else
    (s, 0)

/-- The observable outcome of a byte delivery from the transport. -/
structure RxResult where
  state : FslLinflexState
  irq : Nat

/-- `fsl_linflex_rx`: the transport delivers one byte (`*buf`, a
`uint8_t`, modelled as `buf % 2 ^ 8`).  The byte is stored in the
Receive Buffer, the receive-buffer-full and receive-message-pending
flags are set, and the interrupt line is recomputed. -/
def fsl_linflex_rx (s : FslLinflexState) (buf : Nat) : RxResult :=
  let s1 := setReg s LINFLEX_BDRM (buf % 2 ^ 8)
  let s2 := setReg s1 LINFLEX_UARTSR (s1.regs LINFLEX_UARTSR ||| UARTSR_DRFRFE)
  let s3 := setReg s2 LINFLEX_UARTSR (s2.regs LINFLEX_UARTSR ||| UARTSR_RMB)
  { state := s3, irq := fsl_linflex_update_irq s3 }

/-- `fsl_linflex_can_rx`: the acceptance gate queried by the transport. -/
def fsl_linflex_can_rx (s : FslLinflexState) : Nat :=
  if s.regs LINFLEX_UARTSR &&& UARTSR_DRFRFE ≠ 0 ∨
      s.regs LINFLEX_UARTSR &&& UARTSR_RMB ≠ 0 then 0
  else 1

/-- The all-zero register file, used as a base state for witnesses. -/
def zeroState : FslLinflexState := { regs := fun _ => 0 }

end FslLinflex

namespace FslLinflex

theorem setReg_self (s : FslLinflexState) (r v : Nat) : (setReg s r v).regs r = v := by
  simp [setReg]

theorem setReg_other (s : FslLinflexState) (r v i : Nat) (h : i ≠ r) :
    (setReg s r v).regs i = s.regs i := by
  simp [setReg, h]

/-- Bits OR-ed into a value can be read back: `(a ||| b) &&& b = b`. -/
theorem lor_land_self (a b : Nat) : (a ||| b) &&& b = b := by
  apply Nat.eq_of_testBit_eq
  intro k
  rw [Nat.testBit_and, Nat.testBit_or]
  cases a.testBit k <;> cases b.testBit k <;> rfl

/-- Truncation to 32 bits is invisible under a mask below `2 ^ 32`. -/
theorem mod_two_pow_land (v m n : Nat) (h : m < 2 ^ n) : (v % 2 ^ n) &&& m = v &&& m := by
  apply Nat.eq_of_testBit_eq
  intro k
  rw [Nat.testBit_and, Nat.testBit_and, Nat.testBit_mod_two_pow]
  by_cases hk : k < n
  · simp [hk]
  · have : m < 2 ^ k := lt_of_lt_of_le h (Nat.pow_le_pow_right (by norm_num) (le_of_not_lt hk))
    simp [Nat.testBit_lt_two_pow this]

/-- Claim C8: reading Control-1 returns a value with bit 7 set, forces bit 7 into the
stored Control-1 register, and the returned value is exactly the stored value
after forcing, namely the previous value OR 0x80, in every state. -/
theorem lincr1_read_forces_bit7 (s : FslLinflexState) (offset : Nat)
    (hoff : offset / 4 = LINFLEX_LINCR1) :
    ((fsl_linflex_read s offset).2).testBit 7 = true ∧
    (((fsl_linflex_read s offset).1).regs LINFLEX_LINCR1).testBit 7 = true ∧
    (fsl_linflex_read s offset).2 = ((fsl_linflex_read s offset).1).regs LINFLEX_LINCR1 ∧
    (fsl_linflex_read s offset).2 = s.regs LINFLEX_LINCR1 ||| 0x00000080 := by
  have h7 : ∀ a : Nat, (a ||| 0x00000080).testBit 7 = true := by
    intro a
    rw [Nat.testBit_or]
    have : (0x00000080 : Nat).testBit 7 = true := by decide
    simp [this]
  simp only [fsl_linflex_read, hoff, LINFLEX_LINCR1, LINFLEX_BDRM, LINFLEX_REGS_MAX]
  norm_num [setReg_self, h7]

theorem lincr1_read_forces_bit7_witness :
    ((fsl_linflex_read zeroState 0x00).2).testBit 7 = true :=
  (lincr1_read_forces_bit7 zeroState 0x00 (by decide)).1

end FslLinflex

namespace FslLinflex

/-- Claim C7: writing the Transmit Data Buffer (low) stores the 32-bit truncation of
the value, pushes exactly the low byte to the transport, and sets the
transmit-buffer-empty flag of UART-Status. -/
theorem bdrl_write_tx_and_flag (s : FslLinflexState) (offset v : Nat)
    (hoff : offset / 4 = LINFLEX_BDRL) :
    (fsl_linflex_write s offset v).state.regs LINFLEX_BDRL = v % 2 ^ 32 ∧
    (fsl_linflex_write s offset v).txBytes = [v % 2 ^ 8] ∧
    (fsl_linflex_write s offset v).state.regs LINFLEX_UARTSR &&& UARTSR_DTFTFF ≠ 0 := by
  have hmod : v % 2 ^ 32 % 2 ^ 8 = v % 2 ^ 8 :=
    Nat.mod_mod_of_dvd v (by norm_num)
  simp only [fsl_linflex_write, hoff, LINFLEX_LINCR1, LINFLEX_LINIER, LINFLEX_UARTCR,
    LINFLEX_UARTSR, LINFLEX_BDRL]
  norm_num [setReg, hmod, lor_land_self, UARTSR_DTFTFF]

theorem bdrl_write_tx_and_flag_witness :
    (fsl_linflex_write zeroState 0x38 0x141).state.regs LINFLEX_BDRL = 0x141 ∧
    (fsl_linflex_write zeroState 0x38 0x141).txBytes = [0x41] ∧
    (fsl_linflex_write zeroState 0x38 0x141).state.regs LINFLEX_UARTSR &&& UARTSR_DTFTFF ≠ 0 :=
  bdrl_write_tx_and_flag zeroState 0x38 0x141 (by decide)

/-- Claim C6: a write to Control-1 stores `v &&& 0x0001DF27`; if the INIT bit is set
in the stored result the LIN Status INIT-state flag is set by the write; and a
Control-1 write never clears that flag once set. -/
theorem lincr1_write_mask_sticky_init (s : FslLinflexState) (offset v : Nat)
    (hoff : offset / 4 = LINFLEX_LINCR1) :
    (fsl_linflex_write s offset v).state.regs LINFLEX_LINCR1 = v &&& 0x0001DF27 ∧
    ((fsl_linflex_write s offset v).state.regs LINFLEX_LINCR1 &&& LINCR1_INIT ≠ 0 →
      (fsl_linflex_write s offset v).state.regs LINFLEX_LINSR &&& LINSR_LINS_INIT ≠ 0) ∧
    (s.regs LINFLEX_LINSR &&& LINSR_LINS_INIT ≠ 0 →
      (fsl_linflex_write s offset v).state.regs LINFLEX_LINSR &&& LINSR_LINS_INIT ≠ 0) := by
  have hmask : v % 2 ^ 32 &&& 122663 = v &&& 122663 :=
    mod_two_pow_land v 122663 32 (by norm_num)
  simp only [fsl_linflex_write, hoff, LINFLEX_LINCR1, LINFLEX_LINIER, LINFLEX_UARTCR,
    LINFLEX_UARTSR, LINFLEX_BDRL, LINFLEX_LINSR, LINCR1_INIT, LINSR_LINS_INIT, setReg]
  split_ifs with h <;> simp_all [lor_land_self]

theorem lincr1_write_mask_sticky_init_witness :
    (fsl_linflex_write zeroState 0x00 0x1).state.regs LINFLEX_LINCR1 = 0x1 ∧
    (fsl_linflex_write zeroState 0x00 0x1).state.regs LINFLEX_LINSR &&& LINSR_LINS_INIT ≠ 0 :=
  ⟨(lincr1_write_mask_sticky_init zeroState 0x00 0x1 (by decide)).1,
   (lincr1_write_mask_sticky_init zeroState 0x00 0x1 (by decide)).2.1 (by decide)⟩

end FslLinflex

namespace FslLinflex

/-- Claim C3: a write to UART-Status clears exactly the bits set in both the old
value and the 16-bit-masked written value and preserves every other bit
(bitwise characterization of `old AND NOT (v &&& 0xFFFF)`), and writing the
same clear-mask twice in a row leaves the register unchanged the second
time. -/
theorem uartsr_write_clears_masked_bits (s : FslLinflexState) (offset v : Nat)
    (hoff : offset / 4 = LINFLEX_UARTSR)
    (h32 : s.regs LINFLEX_UARTSR < 2 ^ 32) :
    (∀ k, ((fsl_linflex_write s offset v).state.regs LINFLEX_UARTSR).testBit k =
      ((s.regs LINFLEX_UARTSR).testBit k && !((v &&& 0xFFFF).testBit k))) ∧
    (fsl_linflex_write (fsl_linflex_write s offset v).state offset v).state.regs
        LINFLEX_UARTSR =
      (fsl_linflex_write s offset v).state.regs LINFLEX_UARTSR := by
  have hstate : ∀ t : FslLinflexState,
      (fsl_linflex_write t offset v).state.regs LINFLEX_UARTSR =
        t.regs LINFLEX_UARTSR &&& (0xFFFFFFFF ^^^ (v % 2 ^ 32 &&& 0xFFFF)) := by
    intro t
    simp [fsl_linflex_write, hoff, LINFLEX_LINCR1, LINFLEX_LINIER, LINFLEX_UARTCR,
      LINFLEX_UARTSR, LINFLEX_BDRL, setReg]
  have hbit : ∀ (a k : Nat), a < 2 ^ 32 →
      (a &&& (0xFFFFFFFF ^^^ (v % 2 ^ 32 &&& 0xFFFF))).testBit k =
        (a.testBit k && !((v &&& 0xFFFF).testBit k)) := by
    intro a k ha
    have hmask : v % 2 ^ 32 &&& 0xFFFF = v &&& 0xFFFF :=
      mod_two_pow_land v 0xFFFF 32 (by norm_num)
    have hones : (0xFFFFFFFF : Nat) = 2 ^ 32 - 1 := by norm_num
    rw [hmask, Nat.testBit_and, Nat.testBit_xor, hones, Nat.testBit_two_pow_sub_one]
    by_cases hk : k < 32
    · have hv : (v &&& 0xFFFF).testBit k = (v.testBit k && (0xFFFF : Nat).testBit k) :=
        Nat.testBit_and v 0xFFFF k
      simp [hk]
    · have ha' : a.testBit k = false :=
        Nat.testBit_lt_two_pow (lt_of_lt_of_le ha
          (Nat.pow_le_pow_right (by norm_num) (le_of_not_lt hk)))
      have hv : (v &&& 0xFFFF).testBit k = false := by
        have : (0xFFFF : Nat).testBit k = false :=
          Nat.testBit_lt_two_pow (lt_of_lt_of_le (by norm_num)
            (Nat.pow_le_pow_right (by norm_num) (le_of_not_lt hk)))
        simp [Nat.testBit_and, this]
      simp [hk, ha', hv]
  constructor
  · intro k
    rw [hstate s]
    exact hbit _ k h32
  · rw [hstate, hstate s]
    apply Nat.eq_of_testBit_eq
    intro k
    rw [Nat.testBit_and, Nat.testBit_and]
    cases (s.regs LINFLEX_UARTSR).testBit k <;>
      cases ((0xFFFFFFFF : Nat) ^^^ (v % 2 ^ 32 &&& 0xFFFF)).testBit k <;> rfl

theorem uartsr_write_clears_masked_bits_witness :
    ((fsl_linflex_write (setReg zeroState LINFLEX_UARTSR 0x206) 0x14 0x204).state.regs
        LINFLEX_UARTSR).testBit 1 =
      (((setReg zeroState LINFLEX_UARTSR 0x206).regs LINFLEX_UARTSR).testBit 1 &&
        !(((0x204 : Nat) &&& 0xFFFF).testBit 1)) :=
  (uartsr_write_clears_masked_bits (setReg zeroState LINFLEX_UARTSR 0x206) 0x14 0x204
    (by decide) (by decide)).1 1

end FslLinflex

namespace FslLinflex

/-- A state in which both the receive-buffer-full and the
receive-message-pending flags of UART-Status are set. -/
def rxFullState : FslLinflexState :=
  setReg zeroState LINFLEX_UARTSR (UARTSR_DRFRFE ||| UARTSR_RMB)

/-- Claim C1: evaluation of the code at the failing input.  In `rxFullState` the
UART-Status register has the receive-buffer-full and receive-message-pending
flags set and the 16-bit-masked written value 0x204 has the same bits set
(software is clearing them), yet the write does NOT invoke the
resume-accepting-input notification; writing 0 (which clears neither flag)
DOES invoke it.  The guard in the code is `!(value & mask)` where its own
comment and the spec require `value & mask`. -/
theorem uartsr_accept_input_bug_eval :
    rxFullState.regs LINFLEX_UARTSR &&& (UARTSR_DRFRFE ||| UARTSR_RMB) ≠ 0 ∧
    ((0x204 : Nat) &&& 0xFFFF) &&& (UARTSR_DRFRFE ||| UARTSR_RMB) ≠ 0 ∧
    (fsl_linflex_write rxFullState 0x14 0x204).acceptInput = false ∧
    ((0x0 : Nat) &&& 0xFFFF) &&& (UARTSR_DRFRFE ||| UARTSR_RMB) = 0 ∧
    (fsl_linflex_write rxFullState 0x14 0x0).acceptInput = true := by
  refine ⟨by decide, by decide, ?_, by decide, ?_⟩ <;> rfl

/-- The interrupt-aggregation function drives level 1 exactly when
(receive-interrupt enabled and receive-buffer-full) or (transmit-interrupt
enabled and transmit-buffer-empty), and level 0 exactly otherwise. -/
theorem update_irq_spec (s : FslLinflexState) :
    (fsl_linflex_update_irq s = 1 ↔
      ((s.regs LINFLEX_LINIER &&& LINIER_DRIE ≠ 0 ∧
        s.regs LINFLEX_UARTSR &&& UARTSR_DRFRFE ≠ 0) ∨
       (s.regs LINFLEX_LINIER &&& LINIER_DTIE ≠ 0 ∧
        s.regs LINFLEX_UARTSR &&& UARTSR_DTFTFF ≠ 0))) ∧
    (fsl_linflex_update_irq s = 0 ↔
      ¬ ((s.regs LINFLEX_LINIER &&& LINIER_DRIE ≠ 0 ∧
        s.regs LINFLEX_UARTSR &&& UARTSR_DRFRFE ≠ 0) ∨
       (s.regs LINFLEX_LINIER &&& LINIER_DTIE ≠ 0 ∧
        s.regs LINFLEX_UARTSR &&& UARTSR_DTFTFF ≠ 0))) := by
  unfold fsl_linflex_update_irq
  split_ifs with h1 h2 <;> simp_all

/-- Claim C2: after every guest write (to any offset, including unimplemented and
invalid registers) and after every byte delivery from the transport, the
interrupt line is driven to 1 exactly when (receive-complete interrupt enable
and receive-buffer-full) or (transmit-complete interrupt enable and
transmit-buffer-empty) hold in the resulting state, and to 0 exactly
otherwise. -/
theorem write_rx_irq_level (s : FslLinflexState) (offset v b : Nat) :
    ((fsl_linflex_write s offset v).irq = 1 ↔
      (((fsl_linflex_write s offset v).state.regs LINFLEX_LINIER &&& LINIER_DRIE ≠ 0 ∧
        (fsl_linflex_write s offset v).state.regs LINFLEX_UARTSR &&& UARTSR_DRFRFE ≠ 0) ∨
       ((fsl_linflex_write s offset v).state.regs LINFLEX_LINIER &&& LINIER_DTIE ≠ 0 ∧
        (fsl_linflex_write s offset v).state.regs LINFLEX_UARTSR &&& UARTSR_DTFTFF ≠ 0))) ∧
    ((fsl_linflex_write s offset v).irq = 0 ↔
      ¬ (((fsl_linflex_write s offset v).state.regs LINFLEX_LINIER &&& LINIER_DRIE ≠ 0 ∧
        (fsl_linflex_write s offset v).state.regs LINFLEX_UARTSR &&& UARTSR_DRFRFE ≠ 0) ∨
       ((fsl_linflex_write s offset v).state.regs LINFLEX_LINIER &&& LINIER_DTIE ≠ 0 ∧
        (fsl_linflex_write s offset v).state.regs LINFLEX_UARTSR &&& UARTSR_DTFTFF ≠ 0))) ∧
    ((fsl_linflex_rx s b).irq = 1 ↔
      (((fsl_linflex_rx s b).state.regs LINFLEX_LINIER &&& LINIER_DRIE ≠ 0 ∧
        (fsl_linflex_rx s b).state.regs LINFLEX_UARTSR &&& UARTSR_DRFRFE ≠ 0) ∨
       ((fsl_linflex_rx s b).state.regs LINFLEX_LINIER &&& LINIER_DTIE ≠ 0 ∧
        (fsl_linflex_rx s b).state.regs LINFLEX_UARTSR &&& UARTSR_DTFTFF ≠ 0))) ∧
    ((fsl_linflex_rx s b).irq = 0 ↔
      ¬ (((fsl_linflex_rx s b).state.regs LINFLEX_LINIER &&& LINIER_DRIE ≠ 0 ∧
        (fsl_linflex_rx s b).state.regs LINFLEX_UARTSR &&& UARTSR_DRFRFE ≠ 0) ∨
       ((fsl_linflex_rx s b).state.regs LINFLEX_LINIER &&& LINIER_DTIE ≠ 0 ∧
        (fsl_linflex_rx s b).state.regs LINFLEX_UARTSR &&& UARTSR_DTFTFF ≠ 0))) := by
  have hw : (fsl_linflex_write s offset v).irq =
      fsl_linflex_update_irq ((fsl_linflex_write s offset v).state) := rfl
  have hr : (fsl_linflex_rx s b).irq =
      fsl_linflex_update_irq ((fsl_linflex_rx s b).state) := rfl
  rw [hw, hr]
  exact ⟨(update_irq_spec _).1, (update_irq_spec _).2,
    (update_irq_spec _).1, (update_irq_spec _).2⟩

end FslLinflex

namespace FslLinflex

/-- If a union of two values has no bit in common with a mask, neither does
the left operand alone. -/
theorem land_eq_zero_of_lor_land_eq_zero (a b m : Nat)
    (h : (a ||| b) &&& m = 0) : a &&& m = 0 := by
  apply Nat.eq_of_testBit_eq
  intro k
  have hk := congrArg (fun x => x.testBit k) h
  simp only [Nat.testBit_and, Nat.testBit_or, Nat.zero_testBit] at hk ⊢
  cases ha : a.testBit k <;> cases hm : m.testBit k <;> simp_all

/-- Claim C4: gating of writes to UART-Control.  Outside INIT mode with UART mode
disabled the write is dropped; outside INIT mode with UART mode enabled only
`value &&& 0x0070FC30` is OR-ed in; in INIT mode the UART-mode bit of the
value is OR-ed in, and when UART mode ends up set the full value is OR-ed in
as well; in every case bits are only accumulated, never cleared. -/
theorem uartcr_write_gating (s : FslLinflexState) (offset v : Nat)
    (hoff : offset / 4 = LINFLEX_UARTCR) :
    (s.regs LINFLEX_LINCR1 &&& LINCR1_INIT = 0 →
      s.regs LINFLEX_UARTCR &&& UARTCR_UART = 0 →
      (fsl_linflex_write s offset v).state.regs LINFLEX_UARTCR =
        s.regs LINFLEX_UARTCR) ∧
    (s.regs LINFLEX_LINCR1 &&& LINCR1_INIT = 0 →
      s.regs LINFLEX_UARTCR &&& UARTCR_UART ≠ 0 →
      (fsl_linflex_write s offset v).state.regs LINFLEX_UARTCR =
        s.regs LINFLEX_UARTCR ||| (v % 2 ^ 32 &&& 0x0070FC30)) ∧
    (s.regs LINFLEX_LINCR1 &&& LINCR1_INIT ≠ 0 →
      ((fsl_linflex_write s offset v).state.regs LINFLEX_UARTCR &&& UARTCR_UART = 0 →
        (fsl_linflex_write s offset v).state.regs LINFLEX_UARTCR =
          s.regs LINFLEX_UARTCR ||| (v % 2 ^ 32 &&& UARTCR_UART)) ∧
      ((fsl_linflex_write s offset v).state.regs LINFLEX_UARTCR &&& UARTCR_UART ≠ 0 →
        (fsl_linflex_write s offset v).state.regs LINFLEX_UARTCR =
          (s.regs LINFLEX_UARTCR ||| (v % 2 ^ 32 &&& UARTCR_UART)) ||| v % 2 ^ 32)) ∧
    (∀ k, (s.regs LINFLEX_UARTCR).testBit k = true →
      ((fsl_linflex_write s offset v).state.regs LINFLEX_UARTCR).testBit k = true) := by
  have hreg : (fsl_linflex_write s offset v).state.regs LINFLEX_UARTCR =
      (if s.regs LINFLEX_LINCR1 &&& LINCR1_INIT ≠ 0 then
        (if (s.regs LINFLEX_UARTCR ||| (v % 2 ^ 32 &&& UARTCR_UART)) &&& UARTCR_UART ≠ 0 then
          (s.regs LINFLEX_UARTCR ||| (v % 2 ^ 32 &&& UARTCR_UART)) ||| v % 2 ^ 32
        else s.regs LINFLEX_UARTCR ||| (v % 2 ^ 32 &&& UARTCR_UART))
      else if s.regs LINFLEX_UARTCR &&& UARTCR_UART ≠ 0 then
        s.regs LINFLEX_UARTCR ||| (v % 2 ^ 32 &&& 0x0070FC30)
      else s.regs LINFLEX_UARTCR) := by
    simp [fsl_linflex_write, hoff, LINFLEX_LINCR1, LINFLEX_LINIER, LINFLEX_UARTCR,
      LINFLEX_UARTSR, LINFLEX_BDRL, LINCR1_INIT, UARTCR_UART, setReg]
    split_ifs <;> simp
  rw [hreg]
  refine ⟨?_, ?_, ?_, ?_⟩
  · intro hinit huart
    simp [hinit, huart]
  · intro hinit huart
    simp [hinit, huart]
  · intro hinit
    rw [if_pos hinit]
    split_ifs with hu
    · exact ⟨fun hc => absurd (land_eq_zero_of_lor_land_eq_zero _ _ _ hc) hu,
        fun _ => rfl⟩
    · refine ⟨fun _ => rfl, fun hc => absurd hc ?_⟩
      simpa using hu
  · intro k hk
    split_ifs <;> simp [Nat.testBit_or, hk]

theorem uartcr_write_gating_witness :
    (fsl_linflex_write zeroState 0x10 0xFFFF).state.regs LINFLEX_UARTCR =
      zeroState.regs LINFLEX_UARTCR :=
  (uartcr_write_gating zeroState 0x10 0xFFFF (by decide)).1 (by decide) (by decide)

/-- The registers whose behavior the model does not implement (the enumerated
set of claim C5): writes to them only log. -/
def unimplRegs : List Nat :=
  [LINFLEX_LINESR, LINFLEX_LINTCSR, LINFLEX_LINOCR, LINFLEX_LINTOCR,
   LINFLEX_LINFBRR, LINFLEX_LINIBRR, LINFLEX_LINCFR, LINFLEX_LINCR2,
   LINFLEX_BIDR, LINFLEX_BDRM, LINFLEX_GCR, LINFLEX_UARTPTO,
   LINFLEX_UARTCTO, LINFLEX_DMATXE, LINFLEX_DMARXE]

/-- Claim C5, counterexample: writing 5 to the LIN Error Status register (offset
0x0C, an unimplemented register) does not store 5; the slot stays 0 and the
subsequent read returns 0, not the written value. -/
theorem unimpl_write_not_stored :
    (fsl_linflex_write zeroState 0x0C 5).state.regs LINFLEX_LINESR = 0 ∧
    (fsl_linflex_read ((fsl_linflex_write zeroState 0x0C 5).state) 0x0C).2 = 0 ∧
    (fsl_linflex_read ((fsl_linflex_write zeroState 0x0C 5).state) 0x0C).2 ≠ 5 := by
  refine ⟨rfl, rfl, by decide⟩

/-- Claim C5, amended: a guest write to an unimplemented register is dropped (no
register slot changes), and a guest read of it returns the stored slot value
verbatim — except the Receive Buffer, whose read returns the stored low
byte.  Reads do not mutate the state. -/
theorem unimpl_write_dropped_read_stored (s : FslLinflexState) (offset v : Nat)
    (h : offset / 4 ∈ unimplRegs) :
    (∀ i, (fsl_linflex_write s offset v).state.regs i = s.regs i) ∧
    (fsl_linflex_read s offset).1 = s ∧
    (offset / 4 ≠ LINFLEX_BDRM →
      (fsl_linflex_read s offset).2 = s.regs (offset / 4)) ∧
    (offset / 4 = LINFLEX_BDRM →
      (fsl_linflex_read s offset).2 = s.regs LINFLEX_BDRM &&& 0xFF) := by
  simp [unimplRegs, LINFLEX_LINESR, LINFLEX_LINTCSR, LINFLEX_LINOCR, LINFLEX_LINTOCR,
    LINFLEX_LINFBRR, LINFLEX_LINIBRR, LINFLEX_LINCFR, LINFLEX_LINCR2, LINFLEX_BIDR,
    LINFLEX_BDRM, LINFLEX_GCR, LINFLEX_UARTPTO, LINFLEX_UARTCTO, LINFLEX_DMATXE,
    LINFLEX_DMARXE] at h
  rcases h with h|h|h|h|h|h|h|h|h|h|h|h|h|h|h <;>
    simp [fsl_linflex_write, fsl_linflex_read, h, LINFLEX_LINCR1, LINFLEX_LINIER,
      LINFLEX_UARTCR, LINFLEX_UARTSR, LINFLEX_BDRL, LINFLEX_BDRM, LINFLEX_REGS_MAX]

theorem unimpl_write_dropped_read_stored_witness :
    (fsl_linflex_read zeroState 0x1C).2 = zeroState.regs (0x1C / 4) :=
  (unimpl_write_dropped_read_stored zeroState 0x1C 3 (by decide)).2.2.1 (by decide)

/-- Claim C9: an access whose decoded index falls outside the 21-register
enumeration is inert: the write changes no register slot, pushes no byte and
raises no notification, and the read returns 0 without mutating the state. -/
theorem invalid_access_noop (s : FslLinflexState) (offset v : Nat)
    (h : LINFLEX_REGS_MAX ≤ offset / 4) :
    (∀ i, (fsl_linflex_write s offset v).state.regs i = s.regs i) ∧
    (fsl_linflex_write s offset v).txBytes = [] ∧
    (fsl_linflex_write s offset v).acceptInput = false ∧
    (fsl_linflex_read s offset).1 = s ∧
    (fsl_linflex_read s offset).2 = 0 := by
  simp only [LINFLEX_REGS_MAX] at h
  have h0 : offset / 4 ≠ 0 := by omega
  have h1 : offset / 4 ≠ 1 := by omega
  have h4 : offset / 4 ≠ 4 := by omega
  have h5 : offset / 4 ≠ 5 := by omega
  have h14 : offset / 4 ≠ 14 := by omega
  have h15 : offset / 4 ≠ 15 := by omega
  have hlt : ¬ offset / 4 < 21 := by omega
  simp [fsl_linflex_write, fsl_linflex_read, LINFLEX_LINCR1, LINFLEX_LINIER,
    LINFLEX_UARTCR, LINFLEX_UARTSR, LINFLEX_BDRL, LINFLEX_BDRM, LINFLEX_REGS_MAX,
    h0, h1, h4, h5, h14, h15, hlt]

theorem invalid_access_noop_witness :
    (fsl_linflex_read zeroState 0x54).2 = 0 :=
  (invalid_access_noop zeroState 0x54 9 (by decide)).2.2.2.2

/-- Claim C10: frame property of guest writes.  The only slots a write can change
are the addressed register itself, LIN Status (only when the addressed
register is Control-1) and UART-Status (only when the addressed register is
the Transmit Data Buffer); and a write whose decoded index is none of the
five implemented registers changes no slot at all. -/
theorem write_frame (s : FslLinflexState) (offset v i : Nat) :
    (i ≠ offset / 4 →
      ¬(offset / 4 = LINFLEX_LINCR1 ∧ i = LINFLEX_LINSR) →
      ¬(offset / 4 = LINFLEX_BDRL ∧ i = LINFLEX_UARTSR) →
      (fsl_linflex_write s offset v).state.regs i = s.regs i) ∧
    (offset / 4 ≠ LINFLEX_LINCR1 → offset / 4 ≠ LINFLEX_LINIER →
      offset / 4 ≠ LINFLEX_UARTCR → offset / 4 ≠ LINFLEX_UARTSR →
      offset / 4 ≠ LINFLEX_BDRL →
      ∀ j, (fsl_linflex_write s offset v).state.regs j = s.regs j) := by
  constructor
  · intro hi hsr hus
    by_cases h0 : offset / 4 = LINFLEX_LINCR1
    · have hi0 : i ≠ LINFLEX_LINCR1 := h0 ▸ hi
      have hi2 : i ≠ LINFLEX_LINSR := fun hh => hsr ⟨h0, hh⟩
      simp only [LINFLEX_LINCR1] at hi0 h0
      simp only [LINFLEX_LINSR] at hi2
      simp only [fsl_linflex_write, h0, LINFLEX_LINCR1, LINFLEX_LINIER, LINFLEX_UARTCR,
        LINFLEX_UARTSR, LINFLEX_BDRL, LINFLEX_LINSR, LINSR_LINS_INIT, LINCR1_INIT, setReg]
      split_ifs <;> simp [hi0, hi2]
    by_cases h1 : offset / 4 = LINFLEX_LINIER
    · have hi1 : i ≠ LINFLEX_LINIER := h1 ▸ hi
      simp only [LINFLEX_LINIER] at hi1 h1
      simp [fsl_linflex_write, h1, LINFLEX_LINCR1, LINFLEX_LINIER, LINFLEX_UARTCR,
        LINFLEX_UARTSR, LINFLEX_BDRL, setReg, hi1]
    by_cases h4 : offset / 4 = LINFLEX_UARTCR
    · have hi4 : i ≠ LINFLEX_UARTCR := h4 ▸ hi
      simp only [LINFLEX_UARTCR] at hi4 h4
      simp only [fsl_linflex_write, h4, LINFLEX_LINCR1, LINFLEX_LINIER, LINFLEX_UARTCR,
        LINFLEX_UARTSR, LINFLEX_BDRL, LINCR1_INIT, UARTCR_UART, setReg]
      split_ifs <;> simp_all [hi4]
    by_cases h5 : offset / 4 = LINFLEX_UARTSR
    · have hi5 : i ≠ LINFLEX_UARTSR := h5 ▸ hi
      simp only [LINFLEX_UARTSR] at hi5 h5
      simp [fsl_linflex_write, h5, LINFLEX_LINCR1, LINFLEX_LINIER, LINFLEX_UARTCR,
        LINFLEX_UARTSR, LINFLEX_BDRL, setReg, hi5]
    by_cases h14 : offset / 4 = LINFLEX_BDRL
    · have hi14 : i ≠ LINFLEX_BDRL := h14 ▸ hi
      have hi5 : i ≠ LINFLEX_UARTSR := fun hh => hus ⟨h14, hh⟩
      simp only [LINFLEX_BDRL] at hi14 h14
      simp only [LINFLEX_UARTSR] at hi5
      simp [fsl_linflex_write, h14, LINFLEX_LINCR1, LINFLEX_LINIER, LINFLEX_UARTCR,
        LINFLEX_UARTSR, LINFLEX_BDRL, setReg, hi14, hi5]
    · simp only [LINFLEX_LINCR1] at h0
      simp only [LINFLEX_LINIER] at h1
      simp only [LINFLEX_UARTCR] at h4
      simp only [LINFLEX_UARTSR] at h5
      simp only [LINFLEX_BDRL] at h14
      simp [fsl_linflex_write, LINFLEX_LINCR1, LINFLEX_LINIER, LINFLEX_UARTCR,
        LINFLEX_UARTSR, LINFLEX_BDRL, setReg, h0, h1, h4, h5, h14]
  · intro h0 h1 h4 h5 h14 j
    simp only [LINFLEX_LINCR1] at h0
    simp only [LINFLEX_LINIER] at h1
    simp only [LINFLEX_UARTCR] at h4
    simp only [LINFLEX_UARTSR] at h5
    simp only [LINFLEX_BDRL] at h14
    simp [fsl_linflex_write, LINFLEX_LINCR1, LINFLEX_LINIER, LINFLEX_UARTCR,
      LINFLEX_UARTSR, LINFLEX_BDRL, h0, h1, h4, h5, h14]

theorem write_frame_witness :
    (fsl_linflex_write zeroState 0x0C 7).state.regs 0 = zeroState.regs 0 :=
  (write_frame zeroState 0x0C 7 0).1 (by decide) (by decide) (by decide)

end FslLinflex
